import Mathlib

/-!
# Shallow embedding of drivers/gpu/msm/kgsl.c

A verification development for the MSM KGSL GPU driver core
(memory lifecycle, deferred-free queue, power state machine, context
table, ioctl dispatch).  Each definition translates one C function or
data structure of kgsl.c; machine integers are Nat with explicit
reductions mod 2^32 where the C unsigned arithmetic can wrap.  External
collaborators (the device operation table, the timestamp comparison
helper living in kgsl_cmdstream.h) are modelled from the design
document, and each such definition says so in its doc comment.
-/

namespace KGSL

/-- The size of the 32-bit unsigned integer space: C unsigned int
arithmetic in kgsl.c is arithmetic mod this constant. -/
def U32MOD : Nat := 2 ^ 32

/-- The errno value EINVAL; kgsl.c returns -EINVAL for invalid
arguments. -/
def EINVAL : Int := 22

/-- Modelled from the spec: the wraparound-aware timestamp comparison
(timestamp_cmp of kgsl_cmdstream.h, which is not part of this file).
The design document requires circular ordering that treats the
timestamp space as a fixed-width wrapping counter: processed has
reached target exactly when the wrapped difference, read as a signed
32-bit value, is nonnegative. -/
def timestamp_cmp (processed target : Nat) : Bool :=
  (processed + U32MOD - target % U32MOD) % U32MOD < 2 ^ 31

/-- The memdesc fields of a kgsl_mem_entry that the memory registry
consults: device virtual base address and byte size (struct
kgsl_memdesc, fields gpuaddr and size, both unsigned int). -/
structure Memdesc where
  gpuaddr : Nat
  size : Nat
deriving DecidableEq, Repr

/-- One region owned by a process (struct kgsl_mem_entry): its
memdesc, the owning process (the entry.priv back pointer, keyed here
by process identity), and the target timestamp used while the entry
sits on the deferred-free queue (field free_timestamp). -/
structure MemEntry where
  memdesc : Memdesc
  owner : Nat
  free_timestamp : Nat
deriving DecidableEq, Repr

/-- kgsl_sharedmem_find: walk the process mem_list and return the
first entry whose gpuaddr equals the argument exactly. -/
def kgsl_sharedmem_find (mem_list : List MemEntry) (gpuaddr : Nat) :
    Option MemEntry :=
  mem_list.find? (fun e => e.memdesc.gpuaddr == gpuaddr)

/-- kgsl_sharedmem_find_region: walk the process mem_list and return
the first entry for which gpuaddr >= entry.gpuaddr and
gpuaddr + size <= entry.gpuaddr + entry.size, where both sums are
computed in C unsigned int arithmetic, hence mod 2^32. -/
def kgsl_sharedmem_find_region (mem_list : List MemEntry)
    (gpuaddr size : Nat) : Option MemEntry :=
  mem_list.find? (fun e =>
    decide (e.memdesc.gpuaddr ≤ gpuaddr) &&
    decide ((gpuaddr + size) % U32MOD ≤
      (e.memdesc.gpuaddr + e.memdesc.size) % U32MOD))

/-- The containment relation the design document states for
find_containing: the mapped range of the entry fully contains the byte
extent from gpuaddr to gpuaddr + size, in exact integer arithmetic. -/
def containsExtent (e : MemEntry) (gpuaddr size : Nat) : Prop :=
  e.memdesc.gpuaddr ≤ gpuaddr ∧
  gpuaddr + size ≤ e.memdesc.gpuaddr + e.memdesc.size

instance (e : MemEntry) (gpuaddr size : Nat) :
    Decidable (containsExtent e gpuaddr size) := by
  unfold containsExtent; infer_instance

/-- The loop condition of kgsl_memqueue_drain for one entry: the
retired timestamp read from the hardware has reached the entry's
free_timestamp. -/
def drainReached (ts_processed : Nat) (e : MemEntry) : Bool :=
  timestamp_cmp ts_processed e.free_timestamp

/-- kgsl_memqueue_drain, acting on the device memqueue: walk the queue
in insertion order; while the retired timestamp has reached the head
entry's free_timestamp, unlink and destroy it; stop at the first entry
whose timestamp has not been reached.  Returns the destroyed entries
(in destruction order) and the remaining queue.  The retired timestamp
is the value the C code reads through the device operation table at
entry to the function. -/
def kgsl_memqueue_drain (ts_processed : Nat) :
    List MemEntry → List MemEntry × List MemEntry
  | [] => ([], [])
  | e :: rest =>
    if drainReached ts_processed e then
      let out := kgsl_memqueue_drain ts_processed rest
      (e :: out.1, out.2)
    else ([], e :: rest)

/-- kgsl_memqueue_cleanup: at process teardown, walk the whole
memqueue and remove (destroying) every entry owned by the dying
process, regardless of its target timestamp. -/
def kgsl_memqueue_cleanup (memqueue : List MemEntry) (pid : Nat) :
    List MemEntry :=
  memqueue.filter (fun e => !(e.owner == pid))

/-- kgsl_memqueue_freememontimestamp: stamp the entry with its target
timestamp and append it at the tail of the device memqueue. -/
def kgsl_memqueue_freememontimestamp (memqueue : List MemEntry)
    (entry : MemEntry) (timestamp : Nat) : List MemEntry :=
  memqueue ++ [{ entry with free_timestamp := timestamp }]

theorem kgsl_memqueue_drain_destroyed (ts : Nat) (q : List MemEntry) :
    (kgsl_memqueue_drain ts q).1 = q.takeWhile (drainReached ts) := by
  induction q with
  | nil => rfl
  | cons e rest ih =>
    by_cases h : drainReached ts e
    · simp [kgsl_memqueue_drain, List.takeWhile_cons, h, ih]
    · simp [kgsl_memqueue_drain, List.takeWhile_cons, h]

theorem kgsl_memqueue_drain_remaining (ts : Nat) (q : List MemEntry) :
    (kgsl_memqueue_drain ts q).2 = q.dropWhile (drainReached ts) := by
  induction q with
  | nil => rfl
  | cons e rest ih =>
    by_cases h : drainReached ts e
    · simp [kgsl_memqueue_drain, List.dropWhile_cons, h, ih]
    · simp [kgsl_memqueue_drain, List.dropWhile_cons, h]

theorem kgsl_memqueue_drain_eq (ts : Nat) (q : List MemEntry) :
    kgsl_memqueue_drain ts q =
      (q.takeWhile (drainReached ts), q.dropWhile (drainReached ts)) := by
  rw [Prod.ext_iff]
  exact ⟨kgsl_memqueue_drain_destroyed ts q,
    kgsl_memqueue_drain_remaining ts q⟩

theorem takeWhile_of_dropWhile_eq_nil {α : Type} (p : α → Bool)
    (l : List α) : (l.dropWhile p).takeWhile p = [] := by
  induction l with
  | nil => rfl
  | cons a rest ih =>
    by_cases h : p a
    · simp [List.dropWhile_cons, h, ih]
    · simp [List.dropWhile_cons, h, List.takeWhile_cons]

/-- C1: drain removes and destroys exactly the longest reached initial
segment of the queue in insertion order, stops at the first entry not
reached, leaves the remainder unchanged as a suffix, and an
immediately repeated drain with the same retired timestamp destroys
nothing further. -/
theorem C1_memqueue_drain_spec (ts : Nat) (q : List MemEntry) :
    (kgsl_memqueue_drain ts q).1 = q.takeWhile (drainReached ts) ∧
    (kgsl_memqueue_drain ts q).2 = q.dropWhile (drainReached ts) ∧
    (kgsl_memqueue_drain ts q).1 ++ (kgsl_memqueue_drain ts q).2 = q ∧
    (kgsl_memqueue_drain ts q).1.all (drainReached ts) = true ∧
    (kgsl_memqueue_drain ts q).2.takeWhile (drainReached ts) = [] ∧
    kgsl_memqueue_drain ts (kgsl_memqueue_drain ts q).2 =
      ([], (kgsl_memqueue_drain ts q).2) := by
  refine ⟨kgsl_memqueue_drain_destroyed ts q,
    kgsl_memqueue_drain_remaining ts q, ?_, ?_, ?_, ?_⟩
  · rw [kgsl_memqueue_drain_destroyed, kgsl_memqueue_drain_remaining]
    exact List.takeWhile_append_dropWhile (drainReached ts) q
  · rw [kgsl_memqueue_drain_destroyed]
    simp
  · rw [kgsl_memqueue_drain_remaining]
    exact takeWhile_of_dropWhile_eq_nil (drainReached ts) q
  · rw [kgsl_memqueue_drain_eq ts (kgsl_memqueue_drain ts q).2,
      kgsl_memqueue_drain_remaining ts q, Prod.ext_iff]
    exact ⟨takeWhile_of_dropWhile_eq_nil (drainReached ts) q,
      List.dropWhile_idempotent (drainReached ts) q⟩

theorem find_region_test_iff (e : MemEntry) (gpuaddr size : Nat)
    (h1 : gpuaddr + size < U32MOD)
    (h2 : e.memdesc.gpuaddr + e.memdesc.size < U32MOD) :
    (decide (e.memdesc.gpuaddr ≤ gpuaddr) &&
      decide ((gpuaddr + size) % U32MOD ≤
        (e.memdesc.gpuaddr + e.memdesc.size) % U32MOD)) = true ↔
    containsExtent e gpuaddr size := by
  rw [Nat.mod_eq_of_lt h1, Nat.mod_eq_of_lt h2]
  simp [containsExtent]

/-- C7 counterexample: with a single registered region of base 0 and
size 4096, a lookup of the two-byte extent at address 4294967295 wraps
in the unsigned 32-bit sum and is reported as found, although the
extent from 4294967295 to 4294967297 is not contained in the region. -/
theorem C7_counterexample :
    kgsl_sharedmem_find_region
        [⟨⟨0, 4096⟩, 0, 0⟩] 4294967295 2 = some ⟨⟨0, 4096⟩, 0, 0⟩ ∧
    ¬ containsExtent ⟨⟨0, 4096⟩, 0, 0⟩ 4294967295 2 := by
  constructor
  · decide
  · decide

/-- C7 amended: provided the queried extent and every registered
region stay below the 32-bit wraparound boundary, find_containing
returns a registered entry exactly when that entry fully contains the
byte extent, and not-found exactly when no registered region does. -/
theorem C7_find_region_containing (l : List MemEntry)
    (gpuaddr size : Nat) (hq : gpuaddr + size < U32MOD)
    (hl : ∀ e ∈ l, e.memdesc.gpuaddr + e.memdesc.size < U32MOD) :
    (∀ e, kgsl_sharedmem_find_region l gpuaddr size = some e →
      e ∈ l ∧ containsExtent e gpuaddr size) ∧
    (kgsl_sharedmem_find_region l gpuaddr size = none →
      ∀ e ∈ l, ¬ containsExtent e gpuaddr size) ∧
    ((∃ e ∈ l, containsExtent e gpuaddr size) →
      (kgsl_sharedmem_find_region l gpuaddr size).isSome = true) := by
  refine ⟨?_, ?_, ?_⟩
  · intro e he
    refine ⟨List.mem_of_find?_eq_some he, ?_⟩
    have hp := List.find?_some he
    exact (find_region_test_iff e gpuaddr size hq
      (hl e (List.mem_of_find?_eq_some he))).1 hp
  · intro hnone e hmem hc
    have := List.find?_eq_none.1 hnone e hmem
    exact this ((find_region_test_iff e gpuaddr size hq (hl e hmem)).2 hc)
  · rintro ⟨e, hmem, hc⟩
    unfold kgsl_sharedmem_find_region
    rw [List.find?_isSome]
    exact ⟨e, hmem, (find_region_test_iff e gpuaddr size hq (hl e hmem)).2 hc⟩

/-- C7 witness: a concrete in-bounds lookup instantiating the amended
containment characterisation. -/
theorem C7_find_region_containing_witness :
    (4096 + 16 < U32MOD ∧
      (∀ e ∈ ([⟨⟨4096, 4096⟩, 1, 0⟩] : List MemEntry),
        e.memdesc.gpuaddr + e.memdesc.size < U32MOD)) ∧
    ((∀ e, kgsl_sharedmem_find_region [⟨⟨4096, 4096⟩, 1, 0⟩] 4096 16 =
        some e → e ∈ [⟨⟨4096, 4096⟩, 1, 0⟩] ∧ containsExtent e 4096 16) ∧
    (kgsl_sharedmem_find_region [⟨⟨4096, 4096⟩, 1, 0⟩] 4096 16 = none →
      ∀ e ∈ ([⟨⟨4096, 4096⟩, 1, 0⟩] : List MemEntry),
        ¬ containsExtent e 4096 16) ∧
    ((∃ e ∈ ([⟨⟨4096, 4096⟩, 1, 0⟩] : List MemEntry),
        containsExtent e 4096 16) →
      (kgsl_sharedmem_find_region
        [⟨⟨4096, 4096⟩, 1, 0⟩] 4096 16).isSome = true)) :=
  ⟨⟨by decide, by decide⟩,
    C7_find_region_containing [⟨⟨4096, 4096⟩, 1, 0⟩] 4096 16
      (by decide) (by decide)⟩

/-- kgsl_ioctl_sharedmem_free: look up the exact device address in the
calling process's region list; if found, unlink the entry from the
list and call kgsl_destroy_mem_entry on it at once; otherwise return
-EINVAL with the list untouched.  The function never touches the
device memqueue.  Result: the ioctl return value, the region list
after the call, and the entry handed to kgsl_destroy_mem_entry (none
when nothing was destroyed). -/
def kgsl_ioctl_sharedmem_free (mem_list : List MemEntry)
    (gpuaddr : Nat) : Int × List MemEntry × Option MemEntry :=
  match kgsl_sharedmem_find mem_list gpuaddr with
  | some entry =>
    (0, mem_list.eraseP (fun e => e.memdesc.gpuaddr == gpuaddr),
      some entry)
  | none => (-EINVAL, mem_list, none)

/-- Modelled from the spec: release of a just-freed region is safe
when no outstanding command might still reference it, that is, when
the current retirement timestamp has reached the last issued
timestamp. -/
def free_is_safe (ts_retired ts_last_issued : Nat) : Bool :=
  timestamp_cmp ts_retired ts_last_issued

/-- Modelled from the spec: the behaviour the design document states
for free-memory(address) — ack; immediate destroy if safe, else the
entry becomes a deferred-free release on the device memqueue gated on
the current retirement timestamp; invalid-argument when the address is
not a live region of the caller.  Result: return value, region list,
device memqueue, and the entry destroyed immediately (none when the
entry was deferred or not found). -/
def spec_sharedmem_free (ts_retired ts_last_issued : Nat)
    (mem_list memqueue : List MemEntry) (gpuaddr : Nat) :
    Int × List MemEntry × List MemEntry × Option MemEntry :=
  match kgsl_sharedmem_find mem_list gpuaddr with
  | some entry =>
    let l := mem_list.eraseP (fun e => e.memdesc.gpuaddr == gpuaddr)
    if free_is_safe ts_retired ts_last_issued then
      (0, l, memqueue, some entry)
    else
      (0, l, kgsl_memqueue_freememontimestamp memqueue entry ts_retired,
        none)
  | none => (-EINVAL, mem_list, memqueue, none)

/-- C2 counterexample: with one live region at device address 4096,
retirement timestamp 0 and a command issued at timestamp 5 still
outstanding (so release is not safe), the code destroys the entry
immediately and defers nothing, while the claimed behaviour would
enqueue it on the deferred-free queue and destroy nothing. -/
theorem C2_counterexample :
    free_is_safe 0 5 = false ∧
    kgsl_ioctl_sharedmem_free [⟨⟨4096, 4096⟩, 7, 0⟩] 4096 =
      (0, [], some ⟨⟨4096, 4096⟩, 7, 0⟩) ∧
    spec_sharedmem_free 0 5 [⟨⟨4096, 4096⟩, 7, 0⟩] [] 4096 =
      (0, [], [⟨⟨4096, 4096⟩, 7, 0⟩], none) := by
  refine ⟨by decide, by decide, ?_⟩
  decide

theorem find?_eraseP_of_count_le_one {α : Type} (p : α → Bool)
    (l : List α) (h : (l.filter p).length ≤ 1) :
    (l.eraseP p).find? p = none := by
  induction l with
  | nil => rfl
  | cons a t ih =>
    by_cases hp : p a
    · have h1 : (t.filter p).length + 1 ≤ 1 := by
        rw [List.filter_cons_of_pos hp, List.length_cons] at h
        exact h
      have h0 : t.filter p = [] :=
        List.length_eq_zero.1 (by omega)
      rw [List.eraseP_cons_of_pos hp, List.find?_eq_none]
      intro x hx hpx
      have hmem : x ∈ t.filter p := List.mem_filter.2 ⟨hx, hpx⟩
      rw [h0] at hmem
      exact absurd hmem (List.not_mem_nil x)
    · rw [List.eraseP_cons_of_neg hp, List.find?_cons_of_neg _ hp]
      apply ih
      rw [List.filter_cons_of_neg hp] at h
      exact h

/-- C2 amended: free-memory removes the first exactly matching entry
from the process region list and destroys it immediately and
unconditionally — the deferred-release path exists only in the
separate free-memory-on-timestamp request, so the device memqueue is
never involved; when the address is not a live region the request
returns invalid-argument with the list unchanged, and consequently
(addresses being unique in the registry) a second free of the same
address returns invalid-argument. -/
theorem C2_sharedmem_free_spec (l : List MemEntry) (g : Nat)
    (huniq : (l.filter (fun e => e.memdesc.gpuaddr == g)).length ≤ 1) :
    (kgsl_ioctl_sharedmem_free l g).2.2 = kgsl_sharedmem_find l g ∧
    (kgsl_ioctl_sharedmem_free l g).2.1 =
      l.eraseP (fun e => e.memdesc.gpuaddr == g) ∧
    (kgsl_ioctl_sharedmem_free l g).1 =
      (if (kgsl_sharedmem_find l g).isSome then 0 else -EINVAL) ∧
    ((kgsl_sharedmem_find l g).isSome = true →
      kgsl_ioctl_sharedmem_free (kgsl_ioctl_sharedmem_free l g).2.1 g =
        (-EINVAL, (kgsl_ioctl_sharedmem_free l g).2.1, none)) := by
  have hsecond : (l.eraseP
      (fun e => e.memdesc.gpuaddr == g)).find?
      (fun e => e.memdesc.gpuaddr == g) = none :=
    find?_eraseP_of_count_le_one _ l huniq
  cases hfind : l.find? (fun e => e.memdesc.gpuaddr == g) with
  | some entry =>
    refine ⟨?_, ?_, ?_, ?_⟩
    · simp [kgsl_ioctl_sharedmem_free, kgsl_sharedmem_find, hfind]
    · simp [kgsl_ioctl_sharedmem_free, kgsl_sharedmem_find, hfind]
    · simp [kgsl_ioctl_sharedmem_free, kgsl_sharedmem_find, hfind]
    · intro _
      simp [kgsl_ioctl_sharedmem_free, kgsl_sharedmem_find, hfind,
        hsecond]
  | none =>
    have hkeep : l.eraseP (fun e => e.memdesc.gpuaddr == g) = l :=
      List.eraseP_of_forall_not (List.find?_eq_none.1 hfind)
    refine ⟨?_, ?_, ?_, ?_⟩
    · simp [kgsl_ioctl_sharedmem_free, kgsl_sharedmem_find, hfind]
    · simp [kgsl_ioctl_sharedmem_free, kgsl_sharedmem_find, hfind,
        hkeep]
    · simp [kgsl_ioctl_sharedmem_free, kgsl_sharedmem_find, hfind]
    · intro hc
      simp [kgsl_sharedmem_find, hfind] at hc

/-- C2 witness: the amended statement instantiated at a singleton
registry, exercising both the successful first free and the
invalid-argument second free. -/
theorem C2_sharedmem_free_spec_witness :
    ((([⟨⟨4096, 4096⟩, 7, 0⟩] : List MemEntry).filter
        (fun e => e.memdesc.gpuaddr == 4096)).length ≤ 1) ∧
    ((kgsl_ioctl_sharedmem_free [⟨⟨4096, 4096⟩, 7, 0⟩] 4096).2.2 =
        kgsl_sharedmem_find [⟨⟨4096, 4096⟩, 7, 0⟩] 4096 ∧
      (kgsl_ioctl_sharedmem_free [⟨⟨4096, 4096⟩, 7, 0⟩] 4096).2.1 =
        ([⟨⟨4096, 4096⟩, 7, 0⟩] : List MemEntry).eraseP
          (fun e => e.memdesc.gpuaddr == 4096) ∧
      (kgsl_ioctl_sharedmem_free [⟨⟨4096, 4096⟩, 7, 0⟩] 4096).1 =
        (if (kgsl_sharedmem_find
            [⟨⟨4096, 4096⟩, 7, 0⟩] 4096).isSome then 0 else -EINVAL) ∧
      ((kgsl_sharedmem_find [⟨⟨4096, 4096⟩, 7, 0⟩] 4096).isSome = true →
        kgsl_ioctl_sharedmem_free
            (kgsl_ioctl_sharedmem_free
              [⟨⟨4096, 4096⟩, 7, 0⟩] 4096).2.1 4096 =
          (-EINVAL,
            (kgsl_ioctl_sharedmem_free
              [⟨⟨4096, 4096⟩, 7, 0⟩] 4096).2.1, none))) :=
  ⟨by decide,
    C2_sharedmem_free_spec [⟨⟨4096, 4096⟩, 7, 0⟩] 4096 (by decide)⟩

/-- The power states of the device (KGSL_STATE_* of kgsl.h; the file
under src/ uses NONE, INIT, ACTIVE, NAP, SLEEP and SUSPEND). -/
inductive PwrState where
  | NONE
  | INIT
  | ACTIVE
  | NAP
  | SLEEP
  | SUSPEND
deriving DecidableEq, Repr

/-- The device fields kgsl_suspend reads and writes: current and
requested power state, the nap-allowed configuration bit, the
outstanding-operation counter active_cnt, and whether the idle timer
is armed. -/
structure PmDevice where
  state : PwrState
  requested_state : PwrState
  nap_allowed : Bool
  active_cnt : Nat
  idle_timer_armed : Bool
deriving DecidableEq, Repr

/-- kgsl_suspend, the body handling one device: save and clear
nap_allowed, request SUSPEND, block on the suspend gate when
active_cnt is nonzero, cancel the idle timer, then switch on the
current state: INIT falls straight through with no transition; ACTIVE
waits for hardware idle and, like NAP and SLEEP, suspends the device
context, stops the hardware and moves to SUSPEND; any other state
returns -EINVAL with the power state unchanged (and, as in the C code,
with nap_allowed and requested_state not restored on that path).
Returns the result, the device afterwards, and whether the suspending
thread blocked on the suspend completion gate. -/
def kgsl_suspend_device (d : PmDevice) : Int × PmDevice × Bool :=
  let saved := d.nap_allowed
  let d1 : PmDevice :=
    { d with nap_allowed := false, requested_state := PwrState.SUSPEND }
  let waited := d1.active_cnt != 0
  let d2 : PmDevice := { d1 with idle_timer_armed := false }
  match d2.state with
  | PwrState.INIT =>
    (0, { d2 with
          requested_state := PwrState.NONE
          nap_allowed := saved }, waited)
  | PwrState.ACTIVE =>
    (0, { d2 with
          state := PwrState.SUSPEND
          requested_state := PwrState.NONE
          nap_allowed := saved }, waited)
  | PwrState.NAP =>
    (0, { d2 with
          state := PwrState.SUSPEND
          requested_state := PwrState.NONE
          nap_allowed := saved }, waited)
  | PwrState.SLEEP =>
    (0, { d2 with
          state := PwrState.SUSPEND
          requested_state := PwrState.NONE
          nap_allowed := saved }, waited)
  | _ => (-EINVAL, d2, waited)

/-- C3 counterexample: a suspend attempted from Init returns success
(0), not an invalid-state error, while leaving the state at Init: the
INIT arm of the switch in kgsl_suspend silently breaks out instead of
taking the error path the claim describes. -/
theorem C3_counterexample :
    (kgsl_suspend_device
      ⟨PwrState.INIT, PwrState.NONE, true, 0, false⟩).1 = 0 ∧
    (kgsl_suspend_device
      ⟨PwrState.INIT, PwrState.NONE, true, 0, false⟩).1 ≠ -EINVAL ∧
    (kgsl_suspend_device
      ⟨PwrState.INIT, PwrState.NONE, true, 0, false⟩).2.1.state =
      PwrState.INIT := by
  refine ⟨by decide, by decide, by decide⟩

/-- C3 amended: suspend from Active, Nap or Sleep succeeds and moves
the power state to Suspend; from Init it is a silent no-op that
returns success and leaves the state at Init, so Suspend remains
unreachable from Init; only the remaining states (an already suspended
device, or the none placeholder) produce the invalid-state error, and
on every non-transition path the power state is left unchanged. -/
theorem C3_suspend_state_machine (d : PmDevice) :
    (kgsl_suspend_device d).1 =
      (match d.state with
        | PwrState.SUSPEND => -EINVAL
        | PwrState.NONE => -EINVAL
        | _ => 0) ∧
    (kgsl_suspend_device d).2.1.state =
      (match d.state with
        | PwrState.ACTIVE => PwrState.SUSPEND
        | PwrState.NAP => PwrState.SUSPEND
        | PwrState.SLEEP => PwrState.SUSPEND
        | s => s) := by
  rcases d with ⟨s, rs, na, ac, it⟩
  cases s <;> exact ⟨rfl, rfl⟩

/-- The device fields kgsl_ioctl_device_waittimestamp touches: the
outstanding-operation counter active_cnt, the suspend gate completion
flag, the device memqueue, and the retired timestamp the drain reads
from the hardware after the wait. -/
structure WaitDevState where
  active_cnt : Nat
  suspend_gate_done : Bool
  memqueue : List MemEntry
  ts_retired : Nat
deriving DecidableEq, Repr

/-- The timeout clamp of kgsl_ioctl_device_waittimestamp: a timeout of
-1 (all-ones as unsigned int, the wait-forever request) is replaced by
10 * MSEC_PER_SEC milliseconds; every other value is passed through. -/
def clamped_timeout (timeout : Nat) : Nat :=
  if timeout == U32MOD - 1 then 10 * 1000 else timeout

/-- The observable outcome of kgsl_ioctl_device_waittimestamp: the
ioctl return value, the device state on return, the timeout value
actually handed to the device operation table wait, and the device
state at the moment that blocking wait is invoked. -/
structure WaitTsOut where
  result : Int
  final : WaitDevState
  passed_timeout : Nat
  at_wait : WaitDevState
deriving Repr

/-- kgsl_ioctl_device_waittimestamp: increment active_cnt so a pending
suspend does not proceed, clamp a wait-forever timeout, invoke the
device operation table wait (an oracle over the post-increment device
state, the target timestamp and the clamped timeout), drain the
memqueue unconditionally on return whatever the wait result, then
reset the suspend gate, decrement active_cnt and signal the gate. -/
def kgsl_ioctl_device_waittimestamp
    (wait : WaitDevState → Nat → Nat → Int) (s : WaitDevState)
    (timestamp timeout : Nat) : WaitTsOut :=
  let s1 : WaitDevState := { s with active_cnt := s.active_cnt + 1 }
  let t := clamped_timeout timeout
  let result := wait s1 timestamp t
  let s2 : WaitDevState :=
    { s1 with
      memqueue := (kgsl_memqueue_drain s1.ts_retired s1.memqueue).2 }
  let s3 : WaitDevState := { s2 with suspend_gate_done := false }
  let s4 : WaitDevState := { s3 with active_cnt := s3.active_cnt - 1 }
  let s5 : WaitDevState := { s4 with suspend_gate_done := true }
  ⟨result, s5, t, s1⟩

/-- C4: whatever the device wait does and however it ends, the timeout
handed to it is the clamped value — the wait-forever request (all-ones)
becomes 10 seconds, every timeout passed on is bounded by the larger
of the request and that maximum and is never the wait-forever
sentinel — and the deferred-free queue is drained on return. -/
theorem C4_waittimestamp_clamp_and_drain
    (wait : WaitDevState → Nat → Nat → Int) (s : WaitDevState)
    (timestamp timeout : Nat) :
    (kgsl_ioctl_device_waittimestamp wait s timestamp
        timeout).passed_timeout = clamped_timeout timeout ∧
    clamped_timeout (U32MOD - 1) = 10 * 1000 ∧
    ((kgsl_ioctl_device_waittimestamp wait s timestamp
        timeout).passed_timeout == U32MOD - 1) = false ∧
    (kgsl_ioctl_device_waittimestamp wait s timestamp
        timeout).passed_timeout ≤ max timeout (10 * 1000) ∧
    (kgsl_ioctl_device_waittimestamp wait s timestamp
        timeout).final.memqueue =
      (kgsl_memqueue_drain s.ts_retired s.memqueue).2 := by
  refine ⟨rfl, by decide, ?_, ?_, rfl⟩
  · show (clamped_timeout timeout == U32MOD - 1) = false
    unfold clamped_timeout
    by_cases h : timeout == U32MOD - 1
    · rw [if_pos h]
      decide
    · rw [if_neg h]
      exact beq_eq_false_iff_ne.2 (by simpa using h)
  · show clamped_timeout timeout ≤ max timeout (10 * 1000)
    unfold clamped_timeout
    by_cases h : timeout == U32MOD - 1
    · rw [if_pos h]
      exact le_max_right _ _
    · rw [if_neg h]
      exact le_max_left _ _

/-- C5 counterexample: starting with two outstanding operations (one
from another thread), a completed timestamp wait signals the suspend
gate even though the outstanding-operation counter is still 1, not 0:
the code raises the release signal after every decrement, not only on
the decrement that reaches zero. -/
theorem C5_counterexample :
    (kgsl_ioctl_device_waittimestamp (fun _ _ _ => 0)
      ⟨1, false, [], 0⟩ 3 100).final.suspend_gate_done = true ∧
    (kgsl_ioctl_device_waittimestamp (fun _ _ _ => 0)
      ⟨1, false, [], 0⟩ 3 100).final.active_cnt = 1 := by
  exact ⟨rfl, rfl⟩

/-- C5 amended: the outstanding-operation counter is incremented
before the blocking wait (the device state seen by the wait carries
the incremented counter) and decremented after it, and the suspend
gate is reset and signalled after every decrement — at the end of
every wait request, whatever counter value results — while a pending
suspend blocks on that gate exactly when the counter is nonzero at the
time of its check. -/
theorem C5_active_count_gate (wait : WaitDevState → Nat → Nat → Int)
    (s : WaitDevState) (timestamp timeout : Nat) (d : PmDevice) :
    (kgsl_ioctl_device_waittimestamp wait s timestamp
        timeout).at_wait.active_cnt = s.active_cnt + 1 ∧
    (kgsl_ioctl_device_waittimestamp wait s timestamp
        timeout).final.active_cnt = s.active_cnt ∧
    (kgsl_ioctl_device_waittimestamp wait s timestamp
        timeout).final.suspend_gate_done = true ∧
    (kgsl_suspend_device d).2.2 = (d.active_cnt != 0) := by
  refine ⟨rfl, rfl, rfl, ?_⟩
  rcases d with ⟨s, rs, na, ac, it⟩
  cases s <;> rfl

/-- A command submission context (struct kgsl_context): its
device-unique identifier, the owning client handle (keyed here by an
owner number standing for the dev_priv pointer), and the opaque
device-side payload devctxt, present or absent. -/
structure Context where
  id : Nat
  owner : Nat
  devctxt : Option Unit
deriving DecidableEq, Repr

/-- Modelled from the spec: kgsl_find_context (declared in kgsl.h,
outside this file): look up the identifier in the context table and
return the context only when it belongs to the requesting client
handle. -/
def kgsl_find_context (contexts : List Context) (owner id : Nat) :
    Option Context :=
  contexts.find? (fun c => c.id == id && c.owner == owner)

/-- One command buffer descriptor (struct kgsl_ibdesc): device address
and size in 32-bit words. -/
structure IbDesc where
  gpuaddr : Nat
  sizedwords : Nat
deriving DecidableEq, Repr

/-- check_ibdesc: every descriptor's byte extent — sizedwords words of
four bytes, the multiplication wrapping as C unsigned arithmetic —
must lie fully inside one registered region of the calling process,
looked up with kgsl_sharedmem_find_region; the loop stops at the first
failure.  The cffdump parse step it can additionally run is an
external collaborator that reports success when command dumping is
disabled, and is modelled as such. -/
def check_ibdesc (mem_list : List MemEntry) (ibdesc : List IbDesc) :
    Bool :=
  ibdesc.all (fun ib =>
    (kgsl_sharedmem_find_region mem_list ib.gpuaddr
      ((ib.sizedwords * 4) % U32MOD)).isSome)

/-- The observable outcome of kgsl_ioctl_rb_issueibcmds: ioctl return
value, whether the device operation table issue was invoked, and the
timestamp written into the request payload (none when no new
timestamp was produced). -/
structure IssueOut where
  result : Int
  issued : Bool
  timestamp : Option Nat
deriving DecidableEq, Repr

/-- kgsl_ioctl_rb_issueibcmds: resolve the draw context (invalid
argument if unknown to the caller); in IB-list mode refuse an empty
descriptor list, otherwise read the descriptor array from the user
(modelled as the given list), while legacy mode builds the single
descriptor from the address and count fields; validate every
descriptor with check_ibdesc before issue and fail with -EINVAL
without issuing when any is not contained; issue through the device
operation table (an oracle supplying the issue result and the new
timestamp); re-validate the same descriptors against the region list
as it stands after the issue and report -EINVAL when that second check
fails. -/
def kgsl_ioctl_rb_issueibcmds (contexts : List Context) (owner : Nat)
    (mem_before mem_after : List MemEntry) (issue : Int × Nat)
    (drawctxt_id : Nat) (flags_ib_list : Bool)
    (ibdesc_addr numibs : Nat) (user_ibdescs : List IbDesc) :
    IssueOut :=
  match kgsl_find_context contexts owner drawctxt_id with
  | none => ⟨-EINVAL, false, none⟩
  | some _ =>
    if flags_ib_list && numibs == 0 then ⟨-EINVAL, false, none⟩
    else
      let ibdesc :=
        if flags_ib_list then user_ibdescs
        else [⟨ibdesc_addr, numibs⟩]
      if !(check_ibdesc mem_before ibdesc) then ⟨-EINVAL, false, none⟩
      else if issue.1 != 0 then ⟨issue.1, true, none⟩
      else if !(check_ibdesc mem_after ibdesc) then
        ⟨-EINVAL, true, some issue.2⟩
      else ⟨0, true, some issue.2⟩

/-- C6: the IB-list form with zero descriptors is refused with
invalid-argument before anything is issued; a descriptor set that
fails the containment validation is refused with invalid-argument
without issuing and with no timestamp produced; a successful issue is
re-validated and a failing second check is reported as -EINVAL; and
an issue only ever happens after the first validation passed, while a
zero (success) result guarantees both validations passed. -/
theorem C6_issueibcmds_validation (contexts : List Context)
    (owner : Nat) (mem_before mem_after : List MemEntry)
    (issue : Int × Nat) (drawctxt_id : Nat) (flags_ib_list : Bool)
    (ibdesc_addr numibs : Nat) (user_ibdescs : List IbDesc) :
    (flags_ib_list = true → numibs = 0 →
      kgsl_ioctl_rb_issueibcmds contexts owner mem_before mem_after
        issue drawctxt_id flags_ib_list ibdesc_addr numibs
        user_ibdescs = ⟨-EINVAL, false, none⟩) ∧
    (check_ibdesc mem_before
        (if flags_ib_list then user_ibdescs
          else [⟨ibdesc_addr, numibs⟩]) = false →
      kgsl_ioctl_rb_issueibcmds contexts owner mem_before mem_after
        issue drawctxt_id flags_ib_list ibdesc_addr numibs
        user_ibdescs = ⟨-EINVAL, false, none⟩) ∧
    ((kgsl_find_context contexts owner drawctxt_id).isSome = true →
      (flags_ib_list && numibs == 0) = false →
      check_ibdesc mem_before
        (if flags_ib_list then user_ibdescs
          else [⟨ibdesc_addr, numibs⟩]) = true →
      issue.1 = 0 →
      check_ibdesc mem_after
        (if flags_ib_list then user_ibdescs
          else [⟨ibdesc_addr, numibs⟩]) = false →
      kgsl_ioctl_rb_issueibcmds contexts owner mem_before mem_after
        issue drawctxt_id flags_ib_list ibdesc_addr numibs
        user_ibdescs = ⟨-EINVAL, true, some issue.2⟩) ∧
    ((kgsl_ioctl_rb_issueibcmds contexts owner mem_before mem_after
        issue drawctxt_id flags_ib_list ibdesc_addr numibs
        user_ibdescs).issued = true →
      check_ibdesc mem_before
        (if flags_ib_list then user_ibdescs
          else [⟨ibdesc_addr, numibs⟩]) = true) ∧
    ((kgsl_ioctl_rb_issueibcmds contexts owner mem_before mem_after
        issue drawctxt_id flags_ib_list ibdesc_addr numibs
        user_ibdescs).result = 0 →
      check_ibdesc mem_before
        (if flags_ib_list then user_ibdescs
          else [⟨ibdesc_addr, numibs⟩]) = true ∧
      check_ibdesc mem_after
        (if flags_ib_list then user_ibdescs
          else [⟨ibdesc_addr, numibs⟩]) = true) := by
  cases hctx : kgsl_find_context contexts owner drawctxt_id with
  | none =>
    have hout : kgsl_ioctl_rb_issueibcmds contexts owner mem_before
        mem_after issue drawctxt_id flags_ib_list ibdesc_addr numibs
        user_ibdescs = ⟨-EINVAL, false, none⟩ := by
      simp [kgsl_ioctl_rb_issueibcmds, hctx]
    refine ⟨fun _ _ => hout, fun _ => hout, ?_, ?_, ?_⟩
    · intro hs
      exact absurd hs (by decide)
    · intro hi
      rw [hout] at hi
      exact absurd hi (by decide)
    · intro hr
      rw [hout] at hr
      exact absurd hr (by decide)
  | some c =>
    by_cases hempty : (flags_ib_list && numibs == 0) = true
    · have hout : kgsl_ioctl_rb_issueibcmds contexts owner mem_before
          mem_after issue drawctxt_id flags_ib_list ibdesc_addr numibs
          user_ibdescs = ⟨-EINVAL, false, none⟩ := by
        simp [kgsl_ioctl_rb_issueibcmds, hctx, hempty]
      refine ⟨fun _ _ => hout, fun _ => hout, ?_, ?_, ?_⟩
      · intro _ hne
        rw [hempty] at hne
        exact absurd hne (by decide)
      · intro hi
        rw [hout] at hi
        exact absurd hi (by decide)
      · intro hr
        rw [hout] at hr
        exact absurd hr (by decide)
    · have hne : (flags_ib_list && numibs == 0) = false :=
        Bool.eq_false_iff.2 hempty
      by_cases hchk : check_ibdesc mem_before
          (if flags_ib_list then user_ibdescs
            else [⟨ibdesc_addr, numibs⟩]) = true
      · refine ⟨?_, ?_, ?_, fun _ => hchk, ?_⟩
        · intro hf h0
          rw [hf, h0] at hne
          exact absurd hne (by decide)
        · intro hcf
          rw [hchk] at hcf
          exact absurd hcf (by decide)
        · intro _ _ _ hizero hafter
          simp [kgsl_ioctl_rb_issueibcmds, hctx, hne, hchk, hizero,
            hafter]
        · intro hr
          refine ⟨hchk, ?_⟩
          by_contra hafterne
          have haf : check_ibdesc mem_after
              (if flags_ib_list then user_ibdescs
                else [⟨ibdesc_addr, numibs⟩]) = false :=
            Bool.eq_false_iff.2 hafterne
          by_cases hiz : issue.1 = 0
          · have hout : kgsl_ioctl_rb_issueibcmds contexts owner
                mem_before mem_after issue drawctxt_id flags_ib_list
                ibdesc_addr numibs user_ibdescs =
                ⟨-EINVAL, true, some issue.2⟩ := by
              simp [kgsl_ioctl_rb_issueibcmds, hctx, hne, hchk, haf,
                hiz]
            rw [hout] at hr
            have hnz : (-EINVAL : Int) ≠ 0 := by decide
            exact hnz hr
          · have hout : kgsl_ioctl_rb_issueibcmds contexts owner
                mem_before mem_after issue drawctxt_id flags_ib_list
                ibdesc_addr numibs user_ibdescs =
                ⟨issue.1, true, none⟩ := by
              simp [kgsl_ioctl_rb_issueibcmds, hctx, hne, hchk,
                bne_iff_ne, hiz]
            rw [hout] at hr
            exact hiz hr
      · have hcf : check_ibdesc mem_before
            (if flags_ib_list then user_ibdescs
              else [⟨ibdesc_addr, numibs⟩]) = false :=
          Bool.eq_false_iff.2 hchk
        have hout : kgsl_ioctl_rb_issueibcmds contexts owner
            mem_before mem_after issue drawctxt_id flags_ib_list
            ibdesc_addr numibs user_ibdescs =
            ⟨-EINVAL, false, none⟩ := by
          simp [kgsl_ioctl_rb_issueibcmds, hctx, hne, hcf]
        refine ⟨?_, fun _ => hout, ?_, ?_, ?_⟩
        · intro hf h0
          rw [hf, h0] at hne
          exact absurd hne (by decide)
        · intro _ _ hct
          rw [hct] at hcf
          exact absurd hcf (by decide)
        · intro hi
          rw [hout] at hi
          exact absurd hi (by decide)
        · intro hr
          rw [hout] at hr
          exact absurd hr (by decide)

/-- C6 witness: a concrete request whose single descriptor is not
contained in the caller's one registered region is refused with
invalid-argument, nothing issued and no timestamp produced. -/
theorem C6_issueibcmds_validation_witness :
    check_ibdesc [⟨⟨4096, 4096⟩, 7, 0⟩]
      (if true then [⟨0, 4⟩] else [⟨0, 0⟩]) = false ∧
    kgsl_ioctl_rb_issueibcmds [⟨1, 5, none⟩] 5 [⟨⟨4096, 4096⟩, 7, 0⟩]
      [⟨⟨4096, 4096⟩, 7, 0⟩] (0, 42) 1 true 0 1 [⟨0, 4⟩] =
      ⟨-EINVAL, false, none⟩ :=
  ⟨by decide,
    (C6_issueibcmds_validation [⟨1, 5, none⟩] 5 [⟨⟨4096, 4096⟩, 7, 0⟩]
      [⟨⟨4096, 4096⟩, 7, 0⟩] (0, 42) 1 true 0 1 [⟨0, 4⟩]).2.1
      (by decide)⟩

/-- Modelled from the spec: the Device Operation Table draw-context
destroy (device_drawctxt_destroy in the backend, outside this file) —
the backend releases the device-side payload of the context, leaving
devctxt absent, before the Context Table entry is removed. -/
def device_drawctxt_destroy (c : Context) : Context :=
  { c with devctxt := none }

/-- kgsl_destroy_context: a null context pointer is a no-op;
BUG_ON(context->devctxt) — destruction attempted while the
device-side payload is still allocated — is modelled by none;
otherwise the entry carrying the context's identifier is removed from
the context table (idr_remove). -/
def kgsl_destroy_context (contexts : List Context)
    (c : Option Context) : Option (List Context) :=
  match c with
  | none => some contexts
  | some ctx =>
    if ctx.devctxt.isSome then none
    else some (contexts.eraseP (fun x => x.id == ctx.id))

/-- The context sweep of kgsl_release: walk the context table in
identifier order (the idr_get_next loop with an increasing cursor is
the front-to-back traversal of a table sorted by identifier); each
context owned by the closing handle is destroyed at the backend and
then removed with kgsl_destroy_context — which removes exactly the
entry at hand — and the walk continues on the rest; other handles'
entries are skipped.  A none result is the kernel BUG raised by a
still-allocated payload. -/
def release_sweep (owner : Nat) : List Context → Option (List Context)
  | [] => some []
  | c :: rest =>
    if c.owner == owner then
      match kgsl_destroy_context (c :: rest)
          (some (device_drawctxt_destroy c)) with
      | none => none
      | some _ => release_sweep owner rest
    else (release_sweep owner rest).map (fun l => c :: l)

/-- The device and process state kgsl_release leaves behind: the
context table, the open count, the power state, whether device_stop
was invoked, the returned result, and the device memqueue. -/
structure ReleaseOut where
  contexts : List Context
  open_count : Int
  dstate : PwrState
  stopped : Bool
  result : Int
  memqueue : List MemEntry
deriving DecidableEq, Repr

/-- kgsl_release: destroy every context owned by the closing handle
(backend payload first, then the table entry); decrement the device
open count, which rests at -1 when no handle is open (kgsl_open tests
atomic_inc_and_test); when the decrement returns to -1 this was the
last open handle, so the device is stopped and the state set to INIT,
the result being the device operation table stop result; finally
remove from the device memqueue every deferred-free entry belonging to
the closing handle's process, regardless of target timestamp. -/
def kgsl_release (stop_result : Int) (contexts : List Context)
    (open_count : Int) (dstate : PwrState) (memqueue : List MemEntry)
    (owner pid : Nat) : Option ReleaseOut :=
  (release_sweep owner contexts).map (fun cs =>
    let oc := open_count - 1
    let last := oc == -1
    { contexts := cs
      open_count := oc
      dstate := if last then PwrState.INIT else dstate
      stopped := last
      result := if last then stop_result else 0
      memqueue := kgsl_memqueue_cleanup memqueue pid })

theorem release_sweep_eq_filter (owner : Nat) (l : List Context) :
    release_sweep owner l =
      some (l.filter (fun x => !(x.owner == owner))) := by
  induction l with
  | nil => rfl
  | cons c rest ih =>
    by_cases h : (c.owner == owner) = true
    · simp [release_sweep, h, kgsl_destroy_context,
        device_drawctxt_destroy, ih, List.filter_cons]
    · have hf : (c.owner == owner) = false := Bool.eq_false_iff.2 h
      simp [release_sweep, hf, ih, List.filter_cons]

theorem find_context_filter_none (contexts : List Context)
    (owner id : Nat) :
    kgsl_find_context
      (contexts.filter (fun x => !(x.owner == owner))) owner id =
      none := by
  rw [kgsl_find_context, List.find?_eq_none]
  intro c hc hpc
  have h2 := (List.mem_filter.1 hc).2
  have h3 : (c.id == id) = true ∧ (c.owner == owner) = true := by
    simpa using hpc
  rw [h3.2] at h2
  exact absurd h2 (by decide)

/-- C8: closing a handle removes every context it owns from the table
— afterwards find on any identifier with that handle returns
not-found, with no per-context destroy request from the client —
removes from the deferred-free queue every entry of the closing
process regardless of timestamp, and, when the closing handle was the
last one open (the open count dropping back to its rest value), stops
the device and moves the state from Active to Init. -/
theorem C8_release_spec (stop_result : Int) (contexts : List Context)
    (open_count : Int) (dstate : PwrState) (memqueue : List MemEntry)
    (owner pid : Nat) :
    kgsl_release stop_result contexts open_count dstate memqueue owner
        pid =
      some { contexts := contexts.filter (fun c => !(c.owner == owner))
             open_count := open_count - 1
             dstate := if open_count - 1 == -1 then PwrState.INIT
               else dstate
             stopped := open_count - 1 == -1
             result := if open_count - 1 == -1 then stop_result else 0
             memqueue := memqueue.filter (fun e => !(e.owner == pid)) } ∧
    (∀ i, kgsl_find_context
      (contexts.filter (fun c => !(c.owner == owner))) owner i =
      none) ∧
    (open_count = 0 →
      (kgsl_release stop_result contexts open_count dstate memqueue
          owner pid).map (fun out => (out.dstate, out.stopped)) =
        some (PwrState.INIT, true)) := by
  have h1 : kgsl_release stop_result contexts open_count dstate
      memqueue owner pid =
      some { contexts := contexts.filter (fun c => !(c.owner == owner))
             open_count := open_count - 1
             dstate := if open_count - 1 == -1 then PwrState.INIT
               else dstate
             stopped := open_count - 1 == -1
             result := if open_count - 1 == -1 then stop_result else 0
             memqueue :=
               memqueue.filter (fun e => !(e.owner == pid)) } := by
    rw [kgsl_release, release_sweep_eq_filter]
    rfl
  refine ⟨h1, fun i => find_context_filter_none contexts owner i, ?_⟩
  intro hzero
  rw [h1]
  subst hzero
  rfl

/-- C8 witness: two contexts of the closing handle and one of another
handle, a last close from Active with a mixed memqueue — the handle's
contexts and queue entries are gone, find fails on both its context
identifiers, and the device is stopped into Init. -/
theorem C8_release_spec_witness :
    ((0 : Int) = 0) ∧
    kgsl_release 0 [⟨1, 5, none⟩, ⟨2, 5, none⟩, ⟨3, 6, none⟩] 0
        PwrState.ACTIVE [⟨⟨4096, 4096⟩, 7, 0⟩, ⟨⟨8192, 4096⟩, 8, 0⟩]
        5 7 =
      some { contexts :=
               ([⟨1, 5, none⟩, ⟨2, 5, none⟩,
                 ⟨3, 6, none⟩] : List Context).filter
                 (fun c => !(c.owner == 5))
             open_count := (0 : Int) - 1
             dstate := if (0 : Int) - 1 == -1 then PwrState.INIT
               else PwrState.ACTIVE
             stopped := (0 : Int) - 1 == -1
             result := if (0 : Int) - 1 == -1 then (0 : Int) else 0
             memqueue :=
               ([⟨⟨4096, 4096⟩, 7, 0⟩,
                 ⟨⟨8192, 4096⟩, 8, 0⟩] : List MemEntry).filter
                 (fun e => !(e.owner == 7)) } ∧
    (kgsl_release 0 [⟨1, 5, none⟩, ⟨2, 5, none⟩, ⟨3, 6, none⟩] 0
        PwrState.ACTIVE [⟨⟨4096, 4096⟩, 7, 0⟩, ⟨⟨8192, 4096⟩, 8, 0⟩]
        5 7).map (fun out => (out.dstate, out.stopped)) =
      some (PwrState.INIT, true) :=
  ⟨rfl,
    (C8_release_spec 0 [⟨1, 5, none⟩, ⟨2, 5, none⟩, ⟨3, 6, none⟩] 0
      PwrState.ACTIVE [⟨⟨4096, 4096⟩, 7, 0⟩, ⟨⟨8192, 4096⟩, 8, 0⟩]
      5 7).1,
    (C8_release_spec 0 [⟨1, 5, none⟩, ⟨2, 5, none⟩, ⟨3, 6, none⟩] 0
      PwrState.ACTIVE [⟨⟨4096, 4096⟩, 7, 0⟩, ⟨⟨8192, 4096⟩, 8, 0⟩]
      5 7).2.2 rfl⟩

/-- C9: a context whose device-side payload is still allocated cannot
be removed from the context table (the destroy refuses, modelling the
kernel BUG); once the payload has been destroyed through the device
operation table the removal succeeds and deletes exactly that
identifier's entry; and the release sweep — which destroys the payload
of every owned context before removing it — never trips the
non-null-payload check on any input. -/
theorem C9_destroy_context_payload (contexts : List Context)
    (c : Context) (owner : Nat) :
    (c.devctxt.isSome = true →
      kgsl_destroy_context contexts (some c) = none) ∧
    kgsl_destroy_context contexts (some (device_drawctxt_destroy c)) =
      some (contexts.eraseP (fun x => x.id == c.id)) ∧
    release_sweep owner contexts =
      some (contexts.filter (fun x => !(x.owner == owner))) := by
  refine ⟨?_, ?_, release_sweep_eq_filter owner contexts⟩
  · intro h
    simp [kgsl_destroy_context, h]
  · simp [kgsl_destroy_context, device_drawctxt_destroy]

/-- C9 witness: a payload-bearing context is refused, and after the
backend destroys the payload the same context is removed cleanly. -/
theorem C9_destroy_context_payload_witness :
    (⟨1, 5, some ()⟩ : Context).devctxt.isSome = true ∧
    kgsl_destroy_context [⟨1, 5, some ()⟩]
      (some ⟨1, 5, some ()⟩) = none :=
  ⟨by decide,
    (C9_destroy_context_payload [⟨1, 5, some ()⟩]
      ⟨1, 5, some ()⟩ 5).1 (by decide)⟩

/-- One dispatched request code as the dispatcher sees it: the
request number, whether the code carries a copy-in (write-bearing)
payload, whether it carries a copy-out (read-bearing) payload, and the
declared payload size. -/
structure IoctlCmd where
  nr : Nat
  input : Bool
  output : Bool
  size : Nat
deriving DecidableEq, Repr

/-- kgsl_ioctl, the dispatch of one request: for a command carrying a
payload in either direction the kernel-side buffer is built — copied
in from the caller for a write-bearing command, zero-filled otherwise;
the handler (table entry or the backend catch-all) runs on it and
returns the result with the payload it wrote; the payload is copied
back over the caller's buffer only when the handler returned zero and
the command is read-bearing.  The second component of the result is
the caller's buffer after the request; the user-memory copies
themselves are modelled as succeeding.  ioctl_inbuf is the kernel-side
buffer as the handler receives it. -/
def ioctl_inbuf (cmd : IoctlCmd) (userbuf : List Nat) : List Nat :=
  if cmd.input then userbuf
  else if cmd.output then List.replicate cmd.size 0
  else []

def kgsl_ioctl (handler : List Nat → Int × List Nat) (cmd : IoctlCmd)
    (userbuf : List Nat) : Int × List Nat :=
  let hout := handler (ioctl_inbuf cmd userbuf)
  if hout.1 == 0 && cmd.output then (hout.1, hout.2)
  else (hout.1, userbuf)

/-- C10: the dispatcher returns the handler result unchanged; when the
handler returns any nonzero error the caller's payload buffer is left
exactly as it was; and on success of a read-bearing request the
handler's payload is what reaches the caller. -/
theorem C10_dispatch_copyout (handler : List Nat → Int × List Nat)
    (cmd : IoctlCmd) (userbuf : List Nat) :
    (kgsl_ioctl handler cmd userbuf).1 =
      (handler (ioctl_inbuf cmd userbuf)).1 ∧
    ((kgsl_ioctl handler cmd userbuf).1 ≠ 0 →
      (kgsl_ioctl handler cmd userbuf).2 = userbuf) ∧
    ((kgsl_ioctl handler cmd userbuf).1 = 0 → cmd.output = true →
      (kgsl_ioctl handler cmd userbuf).2 =
        (handler (ioctl_inbuf cmd userbuf)).2) := by
  by_cases hz : ((handler (ioctl_inbuf cmd userbuf)).1 == 0) = true
  · by_cases ho : cmd.output = true
    · have hred : kgsl_ioctl handler cmd userbuf =
          ((handler (ioctl_inbuf cmd userbuf)).1,
          (handler (ioctl_inbuf cmd userbuf)).2) := by
        rw [kgsl_ioctl]
        simp [hz, ho]
      refine ⟨by rw [hred], ?_, fun _ _ => by rw [hred]⟩
      intro hne
      rw [hred] at hne
      exact absurd (by simpa using hz) hne
    · have hof : cmd.output = false := Bool.eq_false_iff.2 ho
      have hred : kgsl_ioctl handler cmd userbuf =
          ((handler (ioctl_inbuf cmd userbuf)).1, userbuf) := by
        rw [kgsl_ioctl]
        simp [hof]
      refine ⟨by rw [hred], fun _ => by rw [hred], ?_⟩
      intro _ hot
      rw [hot] at hof
      exact absurd hof (by decide)
  · have hzf : ((handler (ioctl_inbuf cmd userbuf)).1 == 0) = false :=
      Bool.eq_false_iff.2 hz
    have hred : kgsl_ioctl handler cmd userbuf =
        ((handler (ioctl_inbuf cmd userbuf)).1, userbuf) := by
      rw [kgsl_ioctl]
      simp [hzf]
    refine ⟨by rw [hred], fun _ => by rw [hred], ?_⟩
    intro h0
    rw [hred] at h0
    exact absurd (by simpa using h0) (by simpa using hz)

/-- C10 witness: a read-bearing request whose handler fails with
-EINVAL leaves the caller's two-word buffer untouched. -/
theorem C10_dispatch_copyout_witness :
    (kgsl_ioctl (fun _ => (-EINVAL, [9])) ⟨0, false, true, 1⟩
      [1, 2]).1 ≠ 0 ∧
    (kgsl_ioctl (fun _ => (-EINVAL, [9])) ⟨0, false, true, 1⟩
      [1, 2]).2 = [1, 2] :=
  ⟨by decide,
    (C10_dispatch_copyout (fun _ => (-EINVAL, [9]))
      ⟨0, false, true, 1⟩ [1, 2]).2.1 (by decide)⟩

end KGSL
